import Mathlib

/-!
# Verification of the VayuNetra Carbon Credit Wallet & Ledger core

Shallow embedding of `core/wallet_models.py` and `core/wallet_service.py`.

Conventions of the embedding:
* Python `Decimal` amounts (4 fractional digits, exact arithmetic) are
  modelled as rationals `ℚ`.
* Django model instances are Lean structures; `obj.save()` persists the
  in-memory fields, so state is threaded explicitly and "saved" state is
  the structure value returned.
* A Python `raise` is an `Except.error`; `str(e)` of a `ValueError` is its
  message, of a `NameError` the standard "name '...' is not defined" text.
* `wallet_models.py` imports only `models`, `get_user_model`, the
  validators, `Decimal` and `uuid`; in particular it does NOT import
  `django.utils.timezone`, so every occurrence of `timezone.now()` in that
  module evaluates to a `NameError`.  Likewise `wallet_service.py` never
  imports `django.db.models`, so `models.Sum` there is a `NameError`.
  The embedding reproduces these lookups faithfully.
-/

namespace Carbon

/-- A raised Python exception, as observed by `except` clauses. -/
inductive PyErr where
  | valueError (msg : String)
  | nameError (missing : String)
deriving Repr, DecidableEq

/-- Python `str(e)` on a caught exception. -/
def PyErr.str : PyErr → String
  | .valueError msg => msg
  | .nameError missing => "name '" ++ missing ++ "' is not defined"

/-- `timezone.now()` as evaluated inside `wallet_models.py`: the module has
no binding for `timezone` (the import is missing), so the name lookup
raises `NameError` before any clock is read. -/
def wallet_models_timezone_now : Except PyErr Nat :=
  .error (.nameError "timezone")

/-- `CarbonWallet` (wallet_models.py lines 14-48): the balance fields and
the metadata the core operations read.  `owner_email` stands for
`self.owner.email`. -/
structure Wallet where
  balance : ℚ
  available_balance : ℚ
  frozen_balance : ℚ
  status : String
  owner_email : String
deriving Repr, DecidableEq

/-- `WalletTransaction` (wallet_models.py lines 130-174): one ledger row,
as filled in by `WalletTransaction.objects.create` in the four wallet
operations. -/
structure WalletTransaction where
  transaction_type : String
  amount : ℚ
  source : Option String
  destination : Option String
  description : Option String
  balance_after : ℚ
deriving Repr, DecidableEq

/-- `CarbonWallet.add_credits` (wallet_models.py lines 50-67). -/
def add_credits (w : Wallet) (amount : ℚ) (source description : Option String) :
    Except PyErr (Wallet × WalletTransaction) :=
  if amount ≤ 0 then
    .error (.valueError "Amount must be positive")
  else
    let w2 : Wallet :=
      { w with balance := w.balance + amount,
               available_balance := w.available_balance + amount }
    .ok (w2,
      { transaction_type := "credit", amount := amount, source := source,
        destination := none, description := description,
        balance_after := w2.balance })

/-- `CarbonWallet.freeze_credits` (wallet_models.py lines 69-87). -/
def freeze_credits (w : Wallet) (amount : ℚ) (reason : Option String) :
    Except PyErr (Wallet × WalletTransaction) :=
  if amount ≤ 0 then
    .error (.valueError "Amount must be positive")
  else if w.available_balance < amount then
    .error (.valueError "Insufficient available credits")
  else
    let w2 : Wallet :=
      { w with available_balance := w.available_balance - amount,
               frozen_balance := w.frozen_balance + amount }
    .ok (w2,
      { transaction_type := "freeze", amount := amount, source := none,
        destination := none, description := reason,
        balance_after := w2.balance })

/-- `CarbonWallet.unfreeze_credits` (wallet_models.py lines 89-107). -/
def unfreeze_credits (w : Wallet) (amount : ℚ) (reason : Option String) :
    Except PyErr (Wallet × WalletTransaction) :=
  if amount ≤ 0 then
    .error (.valueError "Amount must be positive")
  else if w.frozen_balance < amount then
    .error (.valueError "Insufficient frozen credits")
  else
    let w2 : Wallet :=
      { w with frozen_balance := w.frozen_balance - amount,
               available_balance := w.available_balance + amount }
    .ok (w2,
      { transaction_type := "unfreeze", amount := amount, source := none,
        destination := none, description := reason,
        balance_after := w2.balance })

/-- `CarbonWallet.deduct_credits` (wallet_models.py lines 109-128).  Note
the recorded transaction amount is `-amount`. -/
def deduct_credits (w : Wallet) (amount : ℚ)
    (destination description : Option String) :
    Except PyErr (Wallet × WalletTransaction) :=
  if amount ≤ 0 then
    .error (.valueError "Amount must be positive")
  else if w.available_balance < amount then
    .error (.valueError "Insufficient available credits")
  else
    let w2 : Wallet :=
      { w with available_balance := w.available_balance - amount,
               balance := w.balance - amount }
    .ok (w2,
      { transaction_type := "debit", amount := -amount, source := none,
        destination := destination, description := description,
        balance_after := w2.balance })

/-- One of the four Wallet Store primitives, with its amount argument. -/
inductive WalletOp where
  | add (amount : ℚ)
  | freeze (amount : ℚ)
  | unfreeze (amount : ℚ)
  | deduct (amount : ℚ)
deriving Repr, DecidableEq

/-- Dispatch a Wallet Store primitive on a wallet. -/
def apply_op (w : Wallet) : WalletOp → Except PyErr (Wallet × WalletTransaction)
  | .add a => add_credits w a none none
  | .freeze a => freeze_credits w a none
  | .unfreeze a => unfreeze_credits w a none
  | .deduct a => deduct_credits w a none none

/-- The wallet balance invariant of the spec:
`balance == available_balance + frozen_balance` and all three fields
non-negative. -/
def wallet_invariant (w : Wallet) : Prop :=
  w.balance = w.available_balance + w.frozen_balance ∧
    0 ≤ w.balance ∧ 0 ≤ w.available_balance ∧ 0 ≤ w.frozen_balance

instance (w : Wallet) : Decidable (wallet_invariant w) := by
  unfold wallet_invariant; infer_instance

end Carbon

namespace Carbon

/-- C1: every successful Wallet Store operation (`add_credits`,
`freeze_credits`, `unfreeze_credits`, `deduct_credits`) on a wallet
satisfying `balance = available_balance + frozen_balance` with all three
fields non-negative yields a wallet satisfying the same invariant. -/
theorem wallet_ops_preserve_invariant (w : Wallet) (op : WalletOp)
    (w2 : Wallet) (tx : WalletTransaction)
    (hinv : wallet_invariant w) (hok : apply_op w op = .ok (w2, tx)) :
    wallet_invariant w2 := by
  obtain ⟨hbal, hb, ha, hf⟩ := hinv
  unfold wallet_invariant
  cases op <;>
    (simp only [apply_op, add_credits, freeze_credits, unfreeze_credits,
        deduct_credits] at hok;
     split_ifs at hok <;>
       simp only [Except.ok.injEq, Prod.mk.injEq, reduceCtorEq, false_and] at hok) <;>
    (obtain ⟨hw, -⟩ := hok; subst hw) <;>
    refine ⟨?_, ?_, ?_, ?_⟩ <;> dsimp only <;> linarith

/-- Witness for C1: freezing 4 credits on a wallet with balance 10,
available 10, frozen 0 keeps the invariant. -/
theorem wallet_ops_preserve_invariant_witness :
    wallet_invariant
      { balance := 10, available_balance := 10, frozen_balance := 0,
        status := "active", owner_email := "a@x.com" } ∧
    wallet_invariant
      { balance := 10, available_balance := 6, frozen_balance := 4,
        status := "active", owner_email := "a@x.com" } :=
  ⟨by norm_num [wallet_invariant], wallet_ops_preserve_invariant
    { balance := 10, available_balance := 10, frozen_balance := 0,
      status := "active", owner_email := "a@x.com" }
    (.freeze 4)
    { balance := 10, available_balance := 6, frozen_balance := 4,
      status := "active", owner_email := "a@x.com" }
    { transaction_type := "freeze", amount := 4, source := none,
      destination := none, description := none, balance_after := 10 }
    (by norm_num [wallet_invariant])
    (by norm_num [apply_op, freeze_credits])⟩

/-- C5: the Wallet Store contract of `add_credits` and `deduct_credits`
(wallet_models.py lines 50-67 and 109-128).  `add_credits` fails with the
invalid-amount error exactly when `amount ≤ 0`, and otherwise returns the
wallet with `balance` and `available_balance` increased by `amount`
together with the single `credit` transaction whose `balance_after` is the
post-mutation balance.  `deduct_credits` fails with the invalid-amount
error exactly when `amount ≤ 0`, with the insufficient-available-balance
error exactly when `0 < amount` and `available_balance < amount`, and
otherwise returns the wallet with both fields decreased together with the
single `debit` transaction.  A failing call raises before any mutation, so
the caller's wallet state and ledger are untouched. -/
theorem wallet_store_contract (w : Wallet) (a : ℚ) (src dst dsc : Option String) :
    (add_credits w a src dsc = .error (.valueError "Amount must be positive") ↔ a ≤ 0) ∧
    (0 < a →
      add_credits w a src dsc = .ok
        ({ w with balance := w.balance + a,
                  available_balance := w.available_balance + a },
         { transaction_type := "credit", amount := a, source := src,
           destination := none, description := dsc,
           balance_after := w.balance + a })) ∧
    (deduct_credits w a dst dsc = .error (.valueError "Amount must be positive") ↔ a ≤ 0) ∧
    (deduct_credits w a dst dsc =
        .error (.valueError "Insufficient available credits") ↔
      0 < a ∧ w.available_balance < a) ∧
    (0 < a → a ≤ w.available_balance →
      deduct_credits w a dst dsc = .ok
        ({ w with balance := w.balance - a,
                  available_balance := w.available_balance - a },
         { transaction_type := "debit", amount := -a, source := none,
           destination := dst, description := dsc,
           balance_after := w.balance - a })) := by
  unfold add_credits deduct_credits
  refine ⟨?_, ?_, ?_, ?_, ?_⟩
  · split_ifs with h <;> simp [h]
  · intro ha
    rw [if_neg (not_le.mpr ha)]
  · split_ifs with h h2
    · simp [h]
    · simp [h]
    · simp [h]
  · constructor
    · intro heq
      split_ifs at heq with h h2
      · simp at heq
      · exact ⟨lt_of_not_le h, h2⟩
    · rintro ⟨ha, hav⟩
      rw [if_neg (not_le.mpr ha), if_pos hav]
  · intro ha hav
    rw [if_neg (not_le.mpr ha), if_neg (not_lt.mpr hav)]

/-- Witness for C5: instantiated on a wallet with available balance 6 and
amount 4. -/
theorem wallet_store_contract_witness :
    (0:ℚ) < 4 ∧ (4:ℚ) ≤ 6 ∧
    deduct_credits
      { balance := 10, available_balance := 6, frozen_balance := 4,
        status := "active", owner_email := "a@x.com" } 4 none none = .ok
      ({ balance := 6, available_balance := 2, frozen_balance := 4,
         status := "active", owner_email := "a@x.com" },
       { transaction_type := "debit", amount := -4, source := none,
         destination := none, description := none, balance_after := 6 }) := by
  refine ⟨by norm_num, by norm_num, ?_⟩
  have h := (wallet_store_contract
    { balance := 10, available_balance := 6, frozen_balance := 4,
      status := "active", owner_email := "a@x.com" } 4 none none none).2.2.2.2
    (by norm_num) (by norm_num)
  rw [h]
  norm_num

/-! ## Ledger reconciliation (C7) -/

/-- Run a sequence of Wallet Store primitives on a wallet, collecting the
appended ledger rows; `none` when some operation raises. -/
def run_ops (w : Wallet) : List WalletOp → Option (Wallet × List WalletTransaction)
  | [] => some (w, [])
  | op :: rest =>
    match apply_op w op with
    | .error _ => none
    | .ok (w2, tx) =>
      match run_ops w2 rest with
      | none => none
      | some (w3, txs) => some (w3, tx :: txs)

/-- A freshly created wallet: all balances zero (wallet_service.py
`get_or_create_wallet`, lines 30-48). -/
def fresh_wallet (email : String) : Wallet :=
  { balance := 0, available_balance := 0, frozen_balance := 0,
    status := "active", owner_email := email }

/-- The sum of the `amount` fields of a list of ledger rows. -/
def amounts_sum (txs : List WalletTransaction) : ℚ :=
  (txs.map WalletTransaction.amount).sum

/-- `CreditVerificationService.verify_wallet_balance` (wallet_service.py
lines 289-297): sums every transaction amount of the wallet and compares
with the stored balance within 0.0001.  Decimal/float values are modelled
exactly as rationals. -/
def verify_wallet_balance (w : Wallet) (txs : List WalletTransaction) : Bool :=
  decide (|amounts_sum txs - w.balance| < 1/10000)

/-- C7 counterexample: starting from a fresh wallet, `add_credits 10` then
`freeze_credits 5` succeed, but the ledger rows sum to 15 while the stored
balance is 10 (`freeze_credits` appends a positive-amount `freeze` row
without changing `balance`), so `verify_wallet_balance` returns false. -/
theorem ledger_reconciliation_cex :
    run_ops (fresh_wallet "a@x.com") [.add 10, .freeze 5] =
      some ({ balance := 10, available_balance := 5, frozen_balance := 5,
              status := "active", owner_email := "a@x.com" },
            [{ transaction_type := "credit", amount := 10, source := none,
               destination := none, description := none, balance_after := 10 },
             { transaction_type := "freeze", amount := 5, source := none,
               destination := none, description := none, balance_after := 10 }]) ∧
    amounts_sum
        [{ transaction_type := "credit", amount := 10, source := none,
           destination := none, description := none, balance_after := 10 },
         { transaction_type := "freeze", amount := 5, source := none,
           destination := none, description := none, balance_after := 10 }] = 15 ∧
    (15:ℚ) ≠ 10 ∧
    verify_wallet_balance
      { balance := 10, available_balance := 5, frozen_balance := 5,
        status := "active", owner_email := "a@x.com" }
      [{ transaction_type := "credit", amount := 10, source := none,
         destination := none, description := none, balance_after := 10 },
       { transaction_type := "freeze", amount := 5, source := none,
         destination := none, description := none, balance_after := 10 }] = false := by
  refine ⟨?_, ?_, by norm_num, ?_⟩
  · norm_num [run_ops, apply_op, add_credits, freeze_credits, fresh_wallet]
  · norm_num [amounts_sum]
  · norm_num [verify_wallet_balance, amounts_sum]

/-- Whether a Wallet Store primitive is an `add_credits` or
`deduct_credits` call (the two operations that move `balance`). -/
def balance_moving : WalletOp → Bool
  | .add _ => true
  | .deduct _ => true
  | .freeze _ => false
  | .unfreeze _ => false

/-- For sequences of `add_credits`/`deduct_credits` only, the appended
ledger rows sum to the change in `balance`. -/
theorem run_ops_balance_moving_sum (ops : List WalletOp) :
    ∀ w w2 txs, (∀ op ∈ ops, balance_moving op = true) →
      run_ops w ops = some (w2, txs) →
      amounts_sum txs = w2.balance - w.balance := by
  induction ops with
  | nil =>
    intro w w2 txs _ hrun
    simp only [run_ops, Option.some.injEq, Prod.mk.injEq] at hrun
    obtain ⟨hw, htxs⟩ := hrun
    subst hw; subst htxs
    simp [amounts_sum]
  | cons op rest ih =>
    intro w w2 txs hall hrun
    have hop : balance_moving op = true := hall op (List.mem_cons_self op rest)
    have hrest : ∀ o ∈ rest, balance_moving o = true :=
      fun o ho => hall o (List.mem_cons_of_mem op ho)
    simp only [run_ops] at hrun
    cases hap : apply_op w op with
    | error e => rw [hap] at hrun; simp at hrun
    | ok p =>
      obtain ⟨w1, tx⟩ := p
      rw [hap] at hrun
      simp only at hrun
      cases hrec : run_ops w1 rest with
      | none => rw [hrec] at hrun; simp at hrun
      | some q =>
        obtain ⟨w3, txs1⟩ := q
        rw [hrec] at hrun
        simp only [Option.some.injEq, Prod.mk.injEq] at hrun
        obtain ⟨hw3, htxs⟩ := hrun
        have hsum := ih w1 w3 txs1 hrest hrec
        have hstep : tx.amount = w1.balance - w.balance := by
          cases op with
          | add a =>
            simp only [apply_op, add_credits] at hap
            split_ifs at hap with h1 <;>
              simp only [Except.ok.injEq, Prod.mk.injEq, reduceCtorEq] at hap
            obtain ⟨hw1, htx⟩ := hap
            subst hw1; subst htx
            dsimp only; ring
          | deduct a =>
            simp only [apply_op, deduct_credits] at hap
            split_ifs at hap with h1 h2 <;>
              simp only [Except.ok.injEq, Prod.mk.injEq, reduceCtorEq] at hap
            obtain ⟨hw1, htx⟩ := hap
            subst hw1; subst htx
            dsimp only; ring
          | freeze a => simp [balance_moving] at hop
          | unfreeze a => simp [balance_moving] at hop
        rw [← htxs, ← hw3]
        have hcons : amounts_sum (tx :: txs1) = tx.amount + amounts_sum txs1 := by
          simp [amounts_sum]
        rw [hcons, hstep, hsum]
        ring

/-- C7 amended: for every wallet whose entire history is a sequence of
successful `add_credits` and `deduct_credits` operations starting from a
fresh zero-balance wallet, the transaction amounts sum to the stored
balance and `verify_wallet_balance` returns true.  (The restriction to
add/deduct is forced: `freeze_credits`/`unfreeze_credits` append
positive-amount rows without changing `balance`, breaking the
reconciliation — see `ledger_reconciliation_cex`.) -/
theorem ledger_reconciliation_add_deduct (email : String) (ops : List WalletOp)
    (w : Wallet) (txs : List WalletTransaction)
    (hall : ∀ op ∈ ops, balance_moving op = true)
    (hrun : run_ops (fresh_wallet email) ops = some (w, txs)) :
    amounts_sum txs = w.balance ∧ verify_wallet_balance w txs = true := by
  have h := run_ops_balance_moving_sum ops (fresh_wallet email) w txs hall hrun
  simp only [fresh_wallet] at h
  have hsum : amounts_sum txs = w.balance := by rw [h]; ring
  refine ⟨hsum, ?_⟩
  simp only [verify_wallet_balance, hsum, sub_self, abs_zero, decide_eq_true_eq]
  norm_num

/-- Witness for C7 amended: add 10 then deduct 4 from a fresh wallet. -/
theorem ledger_reconciliation_add_deduct_witness :
    (∀ op ∈ ([.add 10, .deduct 4] : List WalletOp), balance_moving op = true) ∧
    run_ops (fresh_wallet "a@x.com") [.add 10, .deduct 4] =
      some ({ balance := 6, available_balance := 6, frozen_balance := 0,
              status := "active", owner_email := "a@x.com" },
            [{ transaction_type := "credit", amount := 10, source := none,
               destination := none, description := none, balance_after := 10 },
             { transaction_type := "debit", amount := -4, source := none,
               destination := none, description := none, balance_after := 6 }]) ∧
    amounts_sum
        [{ transaction_type := "credit", amount := 10, source := none,
           destination := none, description := none, balance_after := 10 },
         { transaction_type := "debit", amount := -4, source := none,
           destination := none, description := none, balance_after := 6 }] = 6 ∧
    verify_wallet_balance
      { balance := 6, available_balance := 6, frozen_balance := 0,
        status := "active", owner_email := "a@x.com" }
      [{ transaction_type := "credit", amount := 10, source := none,
         destination := none, description := none, balance_after := 10 },
       { transaction_type := "debit", amount := -4, source := none,
         destination := none, description := none, balance_after := 6 }] = true := by
  have hall : ∀ op ∈ ([.add 10, .deduct 4] : List WalletOp), balance_moving op = true := by
    intro op hop
    simp only [List.mem_cons, List.not_mem_nil, or_false] at hop
    rcases hop with h | h <;> subst h <;> rfl
  have hrun : run_ops (fresh_wallet "a@x.com") [.add 10, .deduct 4] =
      some ({ balance := 6, available_balance := 6, frozen_balance := 0,
              status := "active", owner_email := "a@x.com" },
            [{ transaction_type := "credit", amount := 10, source := none,
               destination := none, description := none, balance_after := 10 },
             { transaction_type := "debit", amount := -4, source := none,
               destination := none, description := none, balance_after := 6 }]) := by
    norm_num [run_ops, apply_op, add_credits, deduct_credits, fresh_wallet]
  have h := ledger_reconciliation_add_deduct "a@x.com" [.add 10, .deduct 4] _ _ hall hrun
  exact ⟨hall, hrun, h.1, h.2⟩

/-! ## Transfer Engine (wallet_models.py lines 185-247) -/

/-- `CreditTransfer` fields read and written by `execute_transfer`.
`completed_at` holds an abstract clock reading. -/
structure CreditTransfer where
  amount : ℚ
  status : String
  message : Option String
  completed_at : Option Nat
  failure_reason : Option String
deriving Repr, DecidableEq

/-- The state touched by one `CreditTransfer.execute_transfer` call: the
transfer row, both wallet rows, and the ledger rows the call appends. -/
structure TransferCtx where
  transfer : CreditTransfer
  from_wallet : Wallet
  to_wallet : Wallet
  new_txs : List WalletTransaction
deriving Repr, DecidableEq

/-- Python `str` applied to an optional string (an f-string renders `None`
as the text "None"). -/
def pyOptStr : Option String → String
  | none => "None"
  | some s => s

/-- The `try` body of `CreditTransfer.execute_transfer` (wallet_models.py
lines 216-234).  On an exception it returns the exception text together
with the state already persisted at that point (each wallet operation
saves as it goes).  Line 231 evaluates `timezone.now()`, which in
`wallet_models.py` is a `NameError`, so the body never reaches
`return True`. -/
def transfer_try_body (s : TransferCtx) : Except (String × TransferCtx) TransferCtx :=
  if s.transfer.status ≠ "pending" then
    .error ("Transfer is not in pending status", s)
  else
    match freeze_credits s.from_wallet s.transfer.amount
        (some ("Transfer to " ++ s.to_wallet.owner_email)) with
    | .error e => .error (e.str, s)
    | .ok (fw1, tx1) =>
      let s1 : TransferCtx :=
        { s with from_wallet := fw1, new_txs := s.new_txs ++ [tx1] }
      match deduct_credits s1.from_wallet s.transfer.amount
          (some s1.to_wallet.owner_email) s1.transfer.message with
      | .error e => .error (e.str, s1)
      | .ok (fw2, tx2) =>
        let s2 : TransferCtx :=
          { s1 with from_wallet := fw2, new_txs := s1.new_txs ++ [tx2] }
        match add_credits s2.to_wallet s.transfer.amount (some "transfer")
            (some ("Transfer from " ++ s2.from_wallet.owner_email ++ ": " ++
              pyOptStr s2.transfer.message)) with
        | .error e => .error (e.str, s2)
        | .ok (tw, tx3) =>
          let s3 : TransferCtx :=
            { s2 with to_wallet := tw, new_txs := s2.new_txs ++ [tx3],
                      transfer := { s2.transfer with status := "completed" } }
          match wallet_models_timezone_now with
          | .error e => .error (e.str, s3)
          | .ok t =>
            .ok { s3 with transfer := { s3.transfer with completed_at := some t } }

/-- The `except` clause of `CreditTransfer.execute_transfer`
(wallet_models.py lines 236-247): record the failure, then best-effort
unfreeze of the transfer amount on the source wallet, swallowing any
exception of the unfreeze itself. -/
def transfer_handle_failure (msg : String) (amount : ℚ) (sE : TransferCtx) :
    TransferCtx × Bool :=
  let sF : TransferCtx :=
    { sE with transfer :=
        { sE.transfer with status := "failed", failure_reason := some msg } }
  match unfreeze_credits sF.from_wallet amount
      (some ("Failed transfer: " ++ msg)) with
  | .ok (fw, tx) =>
    ({ sF with from_wallet := fw, new_txs := sF.new_txs ++ [tx] }, false)
  | .error _ => (sF, false)

/-- `CreditTransfer.execute_transfer` (wallet_models.py lines 214-247). -/
def execute_transfer (s : TransferCtx) : TransferCtx × Bool :=
  match transfer_try_body s with
  | .ok s4 => (s4, true)
  | .error (msg, sE) => transfer_handle_failure msg s.transfer.amount sE

/-- A pending transfer of 5 credits from a wallet with balance 10 and
available balance 10 to an empty wallet. -/
def sample_transfer_rich : TransferCtx :=
  { transfer := { amount := 5, status := "pending", message := some "hi",
                  completed_at := none, failure_reason := none },
    from_wallet := { balance := 10, available_balance := 10, frozen_balance := 0,
                     status := "active", owner_email := "a@x.com" },
    to_wallet := { balance := 0, available_balance := 0, frozen_balance := 0,
                   status := "active", owner_email := "b@x.com" },
    new_txs := [] }

/-- A pending transfer of 5 credits from a wallet holding only 3 credits. -/
def sample_transfer_poor : TransferCtx :=
  { transfer := { amount := 5, status := "pending", message := none,
                  completed_at := none, failure_reason := none },
    from_wallet := { balance := 3, available_balance := 3, frozen_balance := 0,
                     status := "active", owner_email := "a@x.com" },
    to_wallet := { balance := 0, available_balance := 0, frozen_balance := 0,
                   status := "active", owner_email := "b@x.com" },
    new_txs := [] }

/-- C3: executing the pending 5-credit transfer from A(balance 10,
available 10) to B(balance 0) moves the balances as the spec says
(A.balance 5, B.balance 5) but the transfer does NOT complete: line 231 of
wallet_models.py evaluates `timezone.now()` with no `timezone` import, the
`NameError` lands in the `except` clause, and the transfer is saved with
status "failed", no completion time, and the compensating unfreeze applied
to A. -/
theorem transfer_sufficient_funds_marked_failed :
    execute_transfer sample_transfer_rich =
      ({ transfer := { amount := 5, status := "failed", message := some "hi",
                       completed_at := none,
                       failure_reason := some "name 'timezone' is not defined" },
         from_wallet := { balance := 5, available_balance := 5, frozen_balance := 0,
                          status := "active", owner_email := "a@x.com" },
         to_wallet := { balance := 5, available_balance := 5, frozen_balance := 0,
                        status := "active", owner_email := "b@x.com" },
         new_txs :=
           [{ transaction_type := "freeze", amount := 5, source := none,
              destination := none, description := some "Transfer to b@x.com",
              balance_after := 10 },
            { transaction_type := "debit", amount := -5, source := none,
              destination := some "b@x.com", description := some "hi",
              balance_after := 5 },
            { transaction_type := "credit", amount := 5, source := some "transfer",
              destination := none,
              description := some "Transfer from a@x.com: hi",
              balance_after := 5 },
            { transaction_type := "unfreeze", amount := 5, source := none,
              destination := none,
              description := some "Failed transfer: name 'timezone' is not defined",
              balance_after := 5 }] }, false) ∧
    "failed" ≠ "completed" := by
  constructor
  · norm_num [execute_transfer, transfer_try_body, transfer_handle_failure,
      sample_transfer_rich, freeze_credits, deduct_credits, add_credits,
      unfreeze_credits, wallet_models_timezone_now, PyErr.str, pyOptStr]
    decide
  · decide

/-- C2: a transfer that ends in status "failed" does not always leave both
wallets at their pre-attempt balances.  The 5-credit transfer from
A(balance 10) to B(balance 0) ends with status "failed" (the missing
`timezone` import turns the completion step into a `NameError`) yet
A.balance moved 10 → 5 and B.balance moved 0 → 5.  The spec's concrete
instance does hold: the 5-credit transfer from A(balance 3) fails with the
insufficient-available-credits reason and A.balance stays 3. -/
theorem failed_transfer_balance_change :
    ((execute_transfer sample_transfer_rich).1.transfer.status = "failed" ∧
     (execute_transfer sample_transfer_rich).1.from_wallet.balance = 5 ∧
     (execute_transfer sample_transfer_rich).1.to_wallet.balance = 5 ∧
     sample_transfer_rich.from_wallet.balance = 10 ∧
     sample_transfer_rich.to_wallet.balance = 0 ∧
     (5:ℚ) ≠ 10 ∧ (5:ℚ) ≠ 0) ∧
    ((execute_transfer sample_transfer_poor).1.transfer.status = "failed" ∧
     (execute_transfer sample_transfer_poor).1.transfer.failure_reason =
       some "Insufficient available credits" ∧
     (execute_transfer sample_transfer_poor).1.from_wallet.balance = 3 ∧
     (execute_transfer sample_transfer_poor).1.to_wallet.balance = 0) := by
  constructor
  · refine ⟨?_, ?_, ?_, by norm_num [sample_transfer_rich],
      by norm_num [sample_transfer_rich], by norm_num, by norm_num⟩ <;>
      norm_num [execute_transfer, transfer_try_body, transfer_handle_failure,
        sample_transfer_rich, freeze_credits, deduct_credits, add_credits,
        unfreeze_credits, wallet_models_timezone_now, PyErr.str, pyOptStr]
  · refine ⟨?_, ?_, ?_, ?_⟩ <;>
      norm_num [execute_transfer, transfer_try_body, transfer_handle_failure,
        sample_transfer_poor, freeze_credits, deduct_credits, add_credits,
        unfreeze_credits, wallet_models_timezone_now, PyErr.str, pyOptStr]

/-- C8 (amended): calling `execute_transfer` on a non-pending transfer
returns failure with reason "Transfer is not in pending status", but it
does NOT leave the transfer row unchanged: the `except` clause overwrites
`status` with "failed" (so a completed or cancelled transfer transitions
to "failed"; it never becomes "completed").  Both wallets are unchanged
provided the source wallet's frozen balance is below the transfer amount,
since the compensating unfreeze then raises and is swallowed. -/
theorem execute_transfer_non_pending (s : TransferCtx)
    (hst : s.transfer.status ≠ "pending")
    (hfr : s.from_wallet.frozen_balance < s.transfer.amount) :
    execute_transfer s =
      ({ s with transfer :=
          { s.transfer with
              status := "failed",
              failure_reason := some "Transfer is not in pending status" } },
       false) := by
  unfold execute_transfer transfer_try_body transfer_handle_failure
  rw [if_pos hst]
  simp only
  unfold unfreeze_credits
  rcases le_or_lt s.transfer.amount 0 with h | h
  · rw [if_pos h]
  · rw [if_neg (not_le.mpr h), if_pos hfr]

/-- A transfer already in status "completed", between two active wallets
with no frozen credits. -/
def sample_transfer_completed : TransferCtx :=
  { transfer := { amount := 5, status := "completed", message := none,
                  completed_at := none, failure_reason := none },
    from_wallet := { balance := 10, available_balance := 10, frozen_balance := 0,
                     status := "active", owner_email := "a@x.com" },
    to_wallet := { balance := 0, available_balance := 0, frozen_balance := 0,
                   status := "active", owner_email := "b@x.com" },
    new_txs := [] }

/-- C8 counterexample: re-executing a transfer whose status is
"completed" does not leave its status unchanged — the guard's ValueError
is caught by the function's own `except` clause, which overwrites the
status with "failed". -/
theorem completed_transfer_becomes_failed :
    (execute_transfer sample_transfer_completed).1.transfer.status = "failed" ∧
    sample_transfer_completed.transfer.status = "completed" ∧
    "failed" ≠ "completed" := by
  refine ⟨?_, by decide, by decide⟩
  have hbody : transfer_try_body sample_transfer_completed =
      .error ("Transfer is not in pending status", sample_transfer_completed) := by
    unfold transfer_try_body
    rw [if_pos (by decide : sample_transfer_completed.transfer.status ≠ "pending")]
  unfold execute_transfer
  rw [hbody]
  norm_num [transfer_handle_failure, unfreeze_credits, sample_transfer_completed]

/-- Witness for C8 (amended), at the concrete completed transfer. -/
theorem execute_transfer_non_pending_witness :
    sample_transfer_completed.transfer.status ≠ "pending" ∧
    sample_transfer_completed.from_wallet.frozen_balance <
      sample_transfer_completed.transfer.amount ∧
    execute_transfer sample_transfer_completed =
      ({ sample_transfer_completed with transfer :=
          { sample_transfer_completed.transfer with
              status := "failed",
              failure_reason := some "Transfer is not in pending status" } },
       false) :=
  ⟨by decide,
   by norm_num [sample_transfer_completed],
   execute_transfer_non_pending sample_transfer_completed
     (by decide)
     (by norm_num [sample_transfer_completed])⟩

/-! ## Expiry engine (wallet_models.py lines 249-284, wallet_service.py
lines 398-421) -/

/-- `CreditExpiry` fields used by `process_expiry`; `wallet_id` stands for
the foreign key to the record's wallet. -/
structure CreditExpiry where
  wallet_id : String
  amount : ℚ
  expiry_date : Nat
  is_expired : Bool
  processed : Bool
  processed_at : Option Nat
deriving Repr, DecidableEq

/-- Look a wallet up by id in the wallet table. -/
def lookup_wallet (ws : List (String × Wallet)) (wid : String) : Option Wallet :=
  (ws.find? (fun p => p.1 == wid)).map (fun p => p.2)

/-- Save a wallet row back to the wallet table. -/
def update_wallet (ws : List (String × Wallet)) (wid : String) (w : Wallet) :
    List (String × Wallet) :=
  ws.map (fun p => if p.1 == wid then (wid, w) else p)

/-- `CreditExpiry.process_expiry` (wallet_models.py lines 270-284), run
against the current state `w` of the record's wallet.  The result carries
the state actually persisted by the call: on the deduction path,
`deduct_credits` saves the wallet and its ledger row, after which
`self.processed_at = timezone.now()` (line 280) raises `NameError`
(`timezone` is not imported in wallet_models.py) BEFORE `self.save()`
(line 281), so the record's `is_expired`/`processed` updates are lost and
the exception propagates to the caller with the wallet already debited. -/
def process_expiry (e : CreditExpiry) (w : Wallet) :
    (Wallet × List WalletTransaction) × Except PyErr (CreditExpiry × Bool) :=
  if e.processed || e.is_expired then
    ((w, []), .ok (e, false))
  else if e.amount ≤ w.balance then
    match deduct_credits w e.amount none
        (some ("Credit expiry on " ++ toString e.expiry_date)) with
    | .error err => ((w, []), .error err)
    | .ok (w2, tx) =>
      match wallet_models_timezone_now with
      | .error err => ((w2, [tx]), .error err)
      | .ok t =>
        ((w2, [tx]),
         .ok ({ e with is_expired := true, processed := true,
                       processed_at := some t }, true))
  else
    ((w, []), .ok (e, false))

/-- The record filter of `SmartContractService.process_credit_expiry`
(wallet_service.py lines 404-408): due, not processed, not expired. -/
def expiry_due (now : Nat) (e : CreditExpiry) : Bool :=
  decide (e.expiry_date ≤ now) && !e.processed && !e.is_expired

/-- The whole persistent state the expiry batch touches. -/
structure ExpiryState where
  wallets : List (String × Wallet)
  records : List CreditExpiry
  ledger : List WalletTransaction
deriving Repr, DecidableEq

/-- One iteration of the `for expiry in expiry_records` loop of
`process_credit_expiry` (wallet_service.py lines 410-419): run
`process_expiry` under `try`, keep whatever state it persisted, and on an
exception log and continue with the record unchanged. -/
def process_one_record (st : ExpiryState) (e : CreditExpiry) :
    ExpiryState × CreditExpiry × Option (String × ℚ) :=
  match lookup_wallet st.wallets e.wallet_id with
  | none => (st, e, none)
  | some w =>
    match process_expiry e w with
    | ((w2, txs), .ok (e2, flag)) =>
      ({ st with wallets := update_wallet st.wallets e.wallet_id w2,
                 ledger := st.ledger ++ txs },
       e2, if flag then some (e.wallet_id, e.amount) else none)
    | ((w2, txs), .error _) =>
      ({ st with wallets := update_wallet st.wallets e.wallet_id w2,
                 ledger := st.ledger ++ txs },
       e, none)

/-- The loop of `process_credit_expiry` over the selected records,
threading the wallet table and ledger and rebuilding the record list. -/
def process_expiry_loop (now : Nat) :
    List CreditExpiry → ExpiryState →
      List CreditExpiry × ExpiryState × List (String × ℚ)
  | [], st => ([], st, [])
  | e :: rest, st =>
    if expiry_due now e then
      let (st2, e2, info) := process_one_record st e
      let (rest2, st3, infos) := process_expiry_loop now rest st2
      (e2 :: rest2, st3, info.toList ++ infos)
    else
      let (rest2, st2, infos) := process_expiry_loop now rest st
      (e :: rest2, st2, infos)

/-- `SmartContractService.process_credit_expiry` (wallet_service.py lines
398-421): select the due unprocessed records, process each under its own
try/except, and return the updated state together with the
`expired_credits` summary list. -/
def process_credit_expiry (now : Nat) (st : ExpiryState) :
    ExpiryState × List (String × ℚ) :=
  let (records2, st2, infos) := process_expiry_loop now st.records st
  ({ st2 with records := records2 }, infos)

/-- One wallet with 10 credits and one due, unprocessed expiry record of
5 credits. -/
def sample_expiry_state : ExpiryState :=
  { wallets := [("w1", { balance := 10, available_balance := 10, frozen_balance := 0,
                         status := "active", owner_email := "a@x.com" })],
    records := [{ wallet_id := "w1", amount := 5, expiry_date := 0,
                  is_expired := false, processed := false, processed_at := none }],
    ledger := [] }

/-- C4: `process_credit_expiry` is NOT idempotent.  On a wallet with 10
credits and one due 5-credit expiry record, the first run debits the
wallet to 5 — but `process_expiry` raises `NameError` at
`timezone.now()` (line 280 of wallet_models.py, `timezone` unimported)
after the deduction is saved and before `self.save()`, so the record is
still `processed=false, is_expired=false`.  The second run therefore
debits the same record again, leaving balance 0. -/
theorem process_credit_expiry_not_idempotent :
    (process_credit_expiry 1 sample_expiry_state).1.wallets =
      [("w1", { balance := 5, available_balance := 5, frozen_balance := 0,
                status := "active", owner_email := "a@x.com" })] ∧
    (process_credit_expiry 1 sample_expiry_state).1.records =
      [{ wallet_id := "w1", amount := 5, expiry_date := 0,
         is_expired := false, processed := false, processed_at := none }] ∧
    (process_credit_expiry 1 sample_expiry_state).2 = [] ∧
    (process_credit_expiry 1
        (process_credit_expiry 1 sample_expiry_state).1).1.wallets =
      [("w1", { balance := 0, available_balance := 0, frozen_balance := 0,
                status := "active", owner_email := "a@x.com" })] ∧
    (5:ℚ) ≠ 0 := by
  refine ⟨?_, ?_, ?_, ?_, by norm_num⟩ <;>
    norm_num [process_credit_expiry, process_expiry_loop, process_one_record,
      process_expiry, expiry_due, lookup_wallet, update_wallet,
      sample_expiry_state, deduct_credits, wallet_models_timezone_now]

/-! ## Smart-contract transfer validation (wallet_service.py lines
423-455) -/

/-- The structured result dict of `validate_transfer_rules`. -/
structure ValidationResult where
  valid : Bool
  reason : String
deriving Repr, DecidableEq

/-- `SmartContractService.validate_transfer_rules` (wallet_service.py
lines 423-455).  The minimum-amount check (minimum `Decimal('0.0001')`)
returns first; the daily-limit branch then evaluates
`models.Sum('amount')` on line 444, but `wallet_service.py` never imports
`django.db.models`, so the name lookup raises `NameError` before any
aggregate or the 1000.0 daily limit is computed. -/
def validate_transfer_rules (from_wallet to_wallet : Wallet) (amount : ℚ) :
    Except PyErr ValidationResult :=
  if amount < 1/10000 then
    .ok { valid := false,
          reason := "Minimum transfer amount is 0.0001 credits" }
  else
    .error (.nameError "models")

/-- C9: `validate_transfer_rules` is not a total, never-raising
validation.  For any amount at or above the 0.0001 minimum it raises
`NameError` (`models.Sum` with `django.db.models` unimported) instead of
returning a `{valid, reason}` result; only the below-minimum branch
returns the structured rejection. -/
theorem validate_transfer_rules_raises :
    validate_transfer_rules
        { balance := 10, available_balance := 10, frozen_balance := 0,
          status := "active", owner_email := "a@x.com" }
        { balance := 0, available_balance := 0, frozen_balance := 0,
          status := "active", owner_email := "b@x.com" } 1 =
      .error (.nameError "models") ∧
    validate_transfer_rules
        { balance := 10, available_balance := 10, frozen_balance := 0,
          status := "active", owner_email := "a@x.com" }
        { balance := 0, available_balance := 0, frozen_balance := 0,
          status := "active", owner_email := "b@x.com" } (1/20000) =
      .ok { valid := false,
            reason := "Minimum transfer amount is 0.0001 credits" } := by
  constructor <;> norm_num [validate_transfer_rules]

/-! ## Wallet Service reads (wallet_service.py lines 50-67 and 177-205) -/

/-- One row of the `carbon_wallets` table together with its transaction
history, as the read services see it. -/
structure WalletRow where
  wallet_id : String
  owner : String
  wallet_type : String
  wallet : Wallet
  transactions : List WalletTransaction
deriving Repr, DecidableEq

/-- `CarbonWallet.objects.get(owner=..., wallet_type=...)`: the first row
matching the (owner, wallet_type) pair, `none` meaning `DoesNotExist`. -/
def find_wallet (db : List WalletRow) (user wtype : String) : Option WalletRow :=
  db.find? (fun r => r.owner == user && r.wallet_type == wtype)

/-- The balance dict returned by `WalletService.get_wallet_balance`. -/
structure BalanceView where
  total_balance : ℚ
  available_balance : ℚ
  frozen_balance : ℚ
  wallet_id : Option String
deriving Repr, DecidableEq

/-- `WalletService.get_wallet_balance` (wallet_service.py lines 50-67):
on `DoesNotExist` it returns the all-zero dict with `wallet_id: None`
instead of raising, and creates nothing. -/
def get_wallet_balance (db : List WalletRow) (user wtype : String) : BalanceView :=
  match find_wallet db user wtype with
  | some r =>
    { total_balance := r.wallet.balance,
      available_balance := r.wallet.available_balance,
      frozen_balance := r.wallet.frozen_balance,
      wallet_id := some r.wallet_id }
  | none =>
    { total_balance := 0, available_balance := 0, frozen_balance := 0,
      wallet_id := none }

/-- `WalletService.get_transaction_history` (wallet_service.py lines
177-205): reads the `employee` wallet's transactions, optionally filtered
by type, truncated to `limit`; `DoesNotExist` yields the empty list. -/
def get_transaction_history (db : List WalletRow) (user : String) (limit : Nat)
    (transaction_type : Option String) : List WalletTransaction :=
  match find_wallet db user "employee" with
  | none => []
  | some r =>
    let txs :=
      match transaction_type with
      | some t =>
        r.transactions.filter (fun tx : WalletTransaction => tx.transaction_type == t)
      | none => r.transactions
    txs.take limit

/-- C10: read operations on a missing wallet never fail and never create
one.  If no row matches the requested (owner, kind) pair,
`get_wallet_balance` returns the all-zero view with `wallet_id = none`,
and if no `employee` row exists for the owner `get_transaction_history`
returns `[]`; both are pure reads of the table. -/
theorem missing_wallet_reads (db : List WalletRow) (user wtype : String)
    (limit : Nat) (tt : Option String)
    (hb : ∀ r ∈ db, ¬(r.owner = user ∧ r.wallet_type = wtype))
    (hh : ∀ r ∈ db, ¬(r.owner = user ∧ r.wallet_type = "employee")) :
    get_wallet_balance db user wtype =
      { total_balance := 0, available_balance := 0, frozen_balance := 0,
        wallet_id := none } ∧
    get_transaction_history db user limit tt = [] := by
  have hfind : ∀ w2, (∀ r ∈ db, ¬(r.owner = user ∧ r.wallet_type = w2)) →
      find_wallet db user w2 = none := by
    intro w2 h
    apply List.find?_eq_none.mpr
    intro r hr
    have := h r hr
    simp only [Bool.and_eq_true, beq_iff_eq]
    intro hc
    exact this ⟨hc.1, hc.2⟩
  constructor
  · unfold get_wallet_balance
    rw [hfind wtype hb]
  · unfold get_transaction_history
    rw [hfind "employee" hh]

/-- A wallet row belonging to a different user. -/
def sample_other_row : WalletRow :=
  { wallet_id := "w9", owner := "c@x.com", wallet_type := "employee",
    wallet := fresh_wallet "c@x.com", transactions := [] }

/-- Witness for C10: a table holding only another user's wallet. -/
theorem missing_wallet_reads_witness :
    (∀ r ∈ [sample_other_row],
      ¬(WalletRow.owner r = "a@x.com" ∧ WalletRow.wallet_type r = "employee")) ∧
    get_wallet_balance [sample_other_row] "a@x.com" "employee" =
      { total_balance := 0, available_balance := 0, frozen_balance := 0,
        wallet_id := none } ∧
    get_transaction_history [sample_other_row] "a@x.com" 50 none = [] := by
  have h : ∀ r ∈ [sample_other_row],
      ¬(WalletRow.owner r = "a@x.com" ∧ WalletRow.wallet_type r = "employee") := by
    intro r hr
    simp only [List.mem_singleton] at hr
    subst hr
    intro hc
    exact absurd hc.1 (by decide)
  have hm := missing_wallet_reads [sample_other_row]
    "a@x.com" "employee" 50 none h h
  exact ⟨h, hm.1, hm.2⟩

/-! ## Transaction integrity hash (wallet_models.py lines 176-183,
wallet_service.py lines 268-287)

SHA-256 itself is kept abstract as a map `H : String → String`; what
matters for the claims is which preimage string each side feeds to it.
Number renderings (Decimal vs float vs `time.time()`) are passed as the
strings Python interpolates. -/

/-- The preimage hashed by `WalletTransaction.save` (wallet_models.py
line 181): `f"{wallet.id}{transaction_type}{amount}{time.time()}"`. -/
def save_hash_input (wallet_id transaction_type amount_str time_str : String) :
    String :=
  wallet_id ++ transaction_type ++ amount_str ++ time_str

/-- JSON rendering of an optional string field (`default=str` never fires
for these values; `None` becomes `null`). -/
def json_str_or_null : Option String → String
  | none => "null"
  | some s => "\"" ++ s ++ "\""

/-- The preimage hashed by
`CreditVerificationService.verify_transaction_integrity`
(wallet_service.py lines 277-286): `json.dumps(transaction_data,
sort_keys=True, default=str)` of the six-field dict, keys in sorted order
amount, created_at, destination, source, transaction_type, wallet_id. -/
def verify_hash_input (wallet_id transaction_type amount_json
    created_at_iso : String) (source destination : Option String) : String :=
  "\x7b\"amount\": " ++ amount_json ++ ", \"created_at\": \"" ++
    created_at_iso ++ "\", \"destination\": " ++
    json_str_or_null destination ++ ", \"source\": " ++
    json_str_or_null source ++ ", \"transaction_type\": \"" ++
    transaction_type ++ "\", \"wallet_id\": \"" ++ wallet_id ++ "\"\x7d"

/-- `CreditVerificationService.verify_transaction_integrity`: recompute
the hash of the JSON preimage and compare with the stored hash. -/
def verify_transaction_integrity (H : String → String)
    (wallet_id transaction_type amount_json created_at_iso : String)
    (source destination : Option String) (stored_hash : String) : Bool :=
  H (verify_hash_input wallet_id transaction_type amount_json
      created_at_iso source destination) == stored_hash

/-- C6: the hash round-trip fails for a freshly created transaction.  The
creation path (`WalletTransaction.save`) stores the hash of
`wallet_id ++ type ++ amount ++ time.time()`, while
`verify_transaction_integrity` recomputes the hash of a JSON rendering of
(wallet id, type, amount, source, destination, created_at).  The two
preimages are different strings (the JSON one starts with a brace, the
save one with the wallet id), so for any collision-free hash — modelled
as an injective `H`, which an ideal SHA-256 stands for — verification of
a just-created transaction returns false, not true. -/
theorem verify_integrity_false_after_create (H : String → String)
    (hinj : Function.Injective H) :
    verify_transaction_integrity H "3f2b6f4e" "credit" "5.0"
        "2024-01-01T00:00:00" (some "system") none
        (H (save_hash_input "3f2b6f4e" "credit" "5.0000" "1700000000.0")) =
      false := by
  simp only [verify_transaction_integrity, beq_eq_false_iff_ne, ne_eq]
  intro hEq
  have hpre := hinj hEq
  exact absurd hpre (by decide)

/-- Witness for C6, instantiating the abstract hash with the injective
identity map. -/
theorem verify_integrity_false_after_create_witness :
    Function.Injective (id : String → String) ∧
    verify_transaction_integrity id "3f2b6f4e" "credit" "5.0"
        "2024-01-01T00:00:00" (some "system") none
        (id (save_hash_input "3f2b6f4e" "credit" "5.0000" "1700000000.0")) =
      false :=
  ⟨Function.injective_id,
   verify_integrity_false_after_create id Function.injective_id⟩

end Carbon
